import Mathlib

/-!
Verification of the AUTOFORGE in-vehicle diagnostic services.

Shallow embedding of:
* the battery alert evaluator (spec section 4.1; its implementation,
  `BMSDiagnosticService::EvaluateBatteryHealth`, lives in
  `bms_diagnostic_service.hpp`, which is not among the sources — only its
  test suite `bms_diagnostic_test.cpp` is — so it is modelled from the spec),
* the warning-emission thresholds of `BMSDiagnosticService::get_battery_status`
  (`bmsdiagnosticservice.cpp`, embedded from the source),
* `BMSDiagnosticService::get_estimated_range` and its request handler
  (`bmsdiagnosticservice.cpp`, embedded from the source),
* the WarningNotifier dedupe logic (spec section 4.3; `emit_warning` in the
  source is an empty stub, so it is modelled from the spec),
* the request dispatcher (spec section 4.4; routing and MethodNotFound live
  in the external middleware, so modelled from the spec with the method table
  of `BMSDiagnosticService::init`),
* `MotorHealthDiagnosticService::handle_motor_temperature`
  (`motorhealthdiagnosticservice.cpp`, embedded from the source),
* `TirePressureDiagnosticService` (`tirepressurediagnosticservice.cpp`,
  embedded from the source).

Sensor readings are modelled as exact rationals; IEEE-754 non-finite values
(NaN, infinities) are represented explicitly by the `Reading` type with the
IEEE comparison semantics (every comparison with NaN is false).
-/

/-- A floating-point sensor reading: either a finite (exact rational) value or
one of the IEEE-754 non-finite values. -/
inductive Reading where
  | finite (v : ℚ)
  | nan
  | posInf
  | negInf
deriving DecidableEq

/-- IEEE semantics of `reading > c`: false for NaN, true for +inf. -/
def Reading.gtQ : Reading → ℚ → Bool
  | .finite v, c => decide (c < v)
  | .nan, _ => false
  | .posInf, _ => true
  | .negInf, _ => false

/-- IEEE semantics of `reading < c`: false for NaN, true for -inf. -/
def Reading.ltQ : Reading → ℚ → Bool
  | .finite v, c => decide (v < c)
  | .nan, _ => false
  | .posInf, _ => false
  | .negInf, _ => true

/-- Embedding of `std::abs` on exact rationals. -/
def absQ (q : ℚ) : ℚ :=
  if q < 0 then -q else q

/-- IEEE semantics of `|reading| > c` for a nonnegative threshold `c`:
false for NaN, true for both infinities. -/
def Reading.absGtQ : Reading → ℚ → Bool
  | .finite v, c => decide (c < absQ v)
  | .nan, _ => false
  | .posInf, _ => true
  | .negInf, _ => true

/-- Whether the reading is a finite value. -/
def Reading.isFinite : Reading → Bool
  | .finite _ => true
  | _ => false

/-- The battery snapshot, as in the test fixture `BatteryStatus` of
`bms_diagnostic_test.cpp` (temperature in Celsius, state of charge in percent,
voltage in volts, current in amps), plus the stale/unavailable marker the spec
requires of every snapshot. -/
structure BatteryStatus where
  temperature : Reading
  soc : Reading
  voltage : Reading
  current : Reading
  stale : Bool
deriving DecidableEq

/-- The totally ordered alert enumeration NORMAL < WARNING < CRITICAL <
EMERGENCY. -/
inductive AlertLevel where
  | NORMAL
  | WARNING
  | CRITICAL
  | EMERGENCY
deriving DecidableEq

/-- Ordinal encoding of an alert level (0 = NORMAL ... 3 = EMERGENCY). -/
def AlertLevel.toNat : AlertLevel → Nat
  | .NORMAL => 0
  | .WARNING => 1
  | .CRITICAL => 2
  | .EMERGENCY => 3

instance : LE AlertLevel := ⟨fun a b => a.toNat ≤ b.toNat⟩

instance : LT AlertLevel := ⟨fun a b => a.toNat < b.toNat⟩

instance (a b : AlertLevel) : Decidable (a ≤ b) :=
  inferInstanceAs (Decidable (a.toNat ≤ b.toNat))

instance (a b : AlertLevel) : Decidable (a < b) :=
  inferInstanceAs (Decidable (a.toNat < b.toNat))

/-- The tagged warning causes of spec section 3. -/
inductive WarningReason where
  | OverTemperature
  | UnderTemperature
  | LowStateOfCharge
  | CombinedDegradation
  | InvalidSignal
  | StaleData
deriving DecidableEq

/-- Evaluator configuration: the configured high-current threshold of the
combined-failure escalation rule (spec section 4.1). -/
structure EvalConfig where
  highCurrentThreshold : ℚ
deriving DecidableEq

/-- Modelled from the spec: `temperature > 60.0` contributes CRITICAL via
OverTemperature (strict cut). -/
def overTempCritical (s : BatteryStatus) : Bool :=
  s.temperature.gtQ 60

/-- Modelled from the spec: `temperature ∈ (45.0, 60.0]` contributes WARNING
via OverTemperature. -/
def overTempWarning (s : BatteryStatus) : Bool :=
  s.temperature.gtQ 45 && !(s.temperature.gtQ 60)

/-- Modelled from the spec: `temperature < -10.0` contributes WARNING via
UnderTemperature. -/
def underTemp (s : BatteryStatus) : Bool :=
  s.temperature.ltQ (-10)

/-- Modelled from the spec: `state-of-charge < 20.0` contributes WARNING via
LowStateOfCharge. -/
def lowSoc (s : BatteryStatus) : Bool :=
  s.soc.ltQ 20

/-- Modelled from the spec: any non-finite reading contributes WARNING via
InvalidSignal. -/
def invalidSignal (s : BatteryStatus) : Bool :=
  !(s.temperature.isFinite && s.soc.isFinite && s.voltage.isFinite &&
    s.current.isFinite)

/-- Modelled from the spec: the conjunctive combined-failure condition
(temperature > 60.0 and state-of-charge < 20.0 and current magnitude above the
configured high-current threshold). -/
def combinedFailure (cfg : EvalConfig) (s : BatteryStatus) : Bool :=
  s.temperature.gtQ 60 && s.soc.ltQ 20 &&
    s.current.absGtQ cfg.highCurrentThreshold

/-- Modelled from the spec: the set of triggered warning reasons of an
evaluation (spec section 4.1), before the combined escalation. -/
def reasonsOf (s : BatteryStatus) : List WarningReason :=
  (if overTempCritical s || overTempWarning s then [WarningReason.OverTemperature] else []) ++
  (if underTemp s then [WarningReason.UnderTemperature] else []) ++
  (if lowSoc s then [WarningReason.LowStateOfCharge] else []) ++
  (if invalidSignal s then [WarningReason.InvalidSignal] else []) ++
  (if s.stale then [WarningReason.StaleData] else [])

/-- Modelled from the spec: the emitted level is the maximum severity across
all triggered reasons (CRITICAL only from the strict over-temperature cut,
WARNING from every other reason, NORMAL when none triggered), escalated to
EMERGENCY by the combined-failure rule. -/
def levelOf (cfg : EvalConfig) (s : BatteryStatus) : AlertLevel :=
  if combinedFailure cfg s then .EMERGENCY
  else if overTempCritical s then .CRITICAL
  else if overTempWarning s || underTemp s || lowSoc s || invalidSignal s ||
      s.stale then .WARNING
  else .NORMAL

/-- Modelled from the spec: `evaluate(snapshot) -> (AlertLevel,
set<WarningReason>)`, the contract of `EvaluateBatteryHealth`, whose
implementation (`bms_diagnostic_service.hpp`) is absent from the sources;
only its test suite exercises it. The combined escalation additionally tags
CombinedDegradation. -/
def evaluate (cfg : EvalConfig) (s : BatteryStatus) :
    AlertLevel × List WarningReason :=
  (levelOf cfg s,
   if combinedFailure cfg s then WarningReason.CombinedDegradation :: reasonsOf s
   else reasonsOf s)

/-- Embedding of the warning-emission thresholds of
`BMSDiagnosticService::get_battery_status` (`bmsdiagnosticservice.cpp` lines
79-87), generalised over the snapshot values the source hardcodes: `soc < 20`
emits 0x0001, `temperature > 45` emits 0x0002, `temperature > 60` emits
0x0003, each with a strict comparison. -/
def bmsWarnings (soc temp : ℚ) : List (Nat × String) :=
  (if soc < 20 then [(0x0001, "Low battery")] else []) ++
  (if 45 < temp then [(0x0002, "High temperature")] else []) ++
  (if 60 < temp then [(0x0003, "Critical temperature - shutdown required")] else [])

/-- Embedding of `BMSDiagnosticService::get_estimated_range`
(`bmsdiagnosticservice.cpp` lines 98-108): modes 0, 1, 2 map to 200, 400,
600 km; any other mode leaves `range.range_km` uninitialized, modelled as
`none`. -/
def get_estimated_range (driving_mode : Nat) : Option ℚ :=
  if driving_mode = 0 then some 200
  else if driving_mode = 1 then some 400
  else if driving_mode = 2 then some 600
  else none

/-- Embedding of `BMSDiagnosticService::handle_get_estimated_range`
(`bmsdiagnosticservice.cpp` lines 30-40): the driving mode defaults to 1 when
the payload is undersized, otherwise it is the first payload byte; the result
is always sent as a normal response (no error path exists in the source). -/
def handle_get_estimated_range (payload : List Nat) : Option ℚ :=
  get_estimated_range (payload.headD 1)

/-- The dedupe state of the WarningNotifier: the previously emitted
(level, reason-set) pair (spec section 4.3). -/
structure NotifierState where
  lastLevel : AlertLevel
  lastReasons : List WarningReason
deriving DecidableEq

/-- A published warning event: the newly emitted level and reasons; the
cleared event is `⟨NORMAL, []⟩`. -/
structure WarningEvent where
  level : AlertLevel
  reasons : List WarningReason
deriving DecidableEq

/-- Modelled from the spec: `on_new_evaluation(level, reasons) ->
optional<WarningEvent>` of the WarningNotifier (spec section 4.3), whose
implementation is absent from the sources (`BMSDiagnosticService::emit_warning`
is an empty stub). An event is emitted exactly when the reason set changes or
the level increases; the transition from an elevated level back to NORMAL
(empty reason set differing from the previously emitted nonempty one) thereby
emits the cleared event once. -/
def notifierStep (st : NotifierState) (ev : AlertLevel × List WarningReason) :
    NotifierState × Option WarningEvent :=
  if ev.2 ≠ st.lastReasons ∨ st.lastLevel < ev.1 then
    (⟨ev.1, ev.2⟩, some ⟨ev.1, ev.2⟩)
  else (st, none)

/-- Dispatch error codes (spec section 7 taxonomy). -/
inductive ErrorCode where
  | MethodNotFound
  | InvalidArgument
  | ServiceUnavailable
deriving DecidableEq

/-- A dispatch outcome: a successful response payload of semantic values, or
a typed error response. -/
inductive Response where
  | payload (values : List ℚ)
  | error (code : ErrorCode)
deriving DecidableEq

/-- A reading as placed into a response payload: the finite value itself;
non-finite readings are not propagated (spec section 4.1 edge cases) and are
replaced by 0. -/
def Reading.toPayload : Reading → ℚ
  | .finite v => v
  | _ => 0

/-- Modelled from the spec: the GetStatus response payload — snapshot fields
plus the freshly computed AlertLevel encoded as an unsigned ordinal (spec
sections 4.4 and 6). -/
def statusPayload (cfg : EvalConfig) (s : BatteryStatus) : List ℚ :=
  [s.soc.toPayload, s.voltage.toPayload, s.current.toPayload,
   s.temperature.toPayload, ((levelOf cfg s).toNat : ℚ)]

/-- Embedding of `BMSDiagnosticService::get_cell_voltages`
(`bmsdiagnosticservice.cpp` lines 92-96): the fixed cell-voltage list. -/
def cellVoltagesPayload : List ℚ :=
  [37/10, 38/10, 39/10]

/-- The (service id, method id) pairs registered by
`BMSDiagnosticService::init` (`bmsdiagnosticservice.cpp` lines 11-13). -/
def registeredMethods : List (Nat × Nat) :=
  [(4097, 1), (4097, 2), (4097, 3)]

/-- Modelled from the spec: the GetDerivedEstimate handler of the dispatcher —
an undersized payload or a selector outside {0,1,2} is rejected with
InvalidArgument (spec section 4.4); the per-mode estimates are those of
`get_estimated_range`. -/
def handleEstimatedRange (payload : List Nat) : Response :=
  match payload with
  | [] => .error .InvalidArgument
  | m :: _ =>
    match get_estimated_range m with
    | some r => .payload [r]
    | none => .error .InvalidArgument

/-- Modelled from the spec: `dispatch(service_id, method_id, payload) ->
ServiceResponse | ErrorResponse` (spec section 4.4), whose routing lives in
the external middleware, absent from the sources; the method table is the one
registered by `BMSDiagnosticService::init`. Dispatch reads the snapshot and
never mutates it; an unregistered (service, method) pair yields
MethodNotFound. -/
def dispatch (cfg : EvalConfig) (snap : BatteryStatus) (svc mth : Nat)
    (payload : List Nat) : Response × BatteryStatus :=
  if svc = 4097 ∧ mth = 1 then (.payload (statusPayload cfg snap), snap)
  else if svc = 4097 ∧ mth = 2 then (.payload cellVoltagesPayload, snap)
  else if svc = 4097 ∧ mth = 3 then (handleEstimatedRange payload, snap)
  else (.error .MethodNotFound, snap)

/-- Embedding of `MotorHealthDiagnosticService::handle_motor_temperature`
(`motorhealthdiagnosticservice.cpp` lines 36-42): an if / else-if chain that
tests `temperature > 85.0` before `temperature > 100.0` and emits at most one
event, given as (code, message). -/
def handle_motor_temperature (temperature : ℚ) : Option (Nat × String) :=
  if 85 < temperature then some (0x0201, "Motor temperature high")
  else if 100 < temperature then some (0x0202, "Motor critical temperature")
  else none

/-- The tire-pressure state of `TirePressureDiagnosticService`
(`tirepressurediagnosticservice.cpp`): the four stored pressures. -/
structure TireState where
  tire_pressure_fl : ℚ
  tire_pressure_fr : ℚ
  tire_pressure_rl : ℚ
  tire_pressure_rr : ℚ
deriving DecidableEq

/-- Embedding of `TirePressureDiagnosticService::TireStatus`. -/
structure TireStatus where
  tire_pressure_fl : ℚ
  tire_pressure_fr : ℚ
  tire_pressure_rl : ℚ
  tire_pressure_rr : ℚ
  failure_risk : ℚ
deriving DecidableEq

/-- Embedding of `TirePressureDiagnosticService::WarningEvent`: a 16-bit code
and a message; value initialization (`return {}`) gives code 0 and the empty
message. -/
structure TireWarningEvent where
  warning_code : Nat
  warning_message : String
deriving DecidableEq

/-- Embedding of `TirePressureDiagnosticService::setTirePressures`
(`tirepressurediagnosticservice.cpp` lines 22-27): stores the four values. -/
def setTirePressures (_st : TireState) (fl fr rl rr : ℚ) : TireState :=
  ⟨fl, fr, rl, rr⟩

/-- Embedding of `TirePressureDiagnosticService::calculateFailureRisk`
(`tirepressurediagnosticservice.cpp` lines 49-52): the placeholder returns
0.0. -/
def calculateFailureRisk (_st : TireState) : ℚ :=
  0

/-- Embedding of `TirePressureDiagnosticService::GetTireStatus`
(`tirepressurediagnosticservice.cpp` lines 29-37): copies the four stored
pressures and fills in the computed failure risk. -/
def GetTireStatus (st : TireState) : TireStatus :=
  ⟨st.tire_pressure_fl, st.tire_pressure_fr, st.tire_pressure_rl,
   st.tire_pressure_rr, calculateFailureRisk st⟩

/-- Embedding of `TirePressureDiagnosticService::emitTireWarning`
(`tirepressurediagnosticservice.cpp` lines 39-46): any pressure below 2.0
yields code 0x0101; otherwise an axle-pair difference above 0.4 yields code
0x0102; otherwise the value-initialized (zero) event. -/
def emitTireWarning (st : TireState) : TireWarningEvent :=
  if st.tire_pressure_fl < 2 ∨ st.tire_pressure_fr < 2 ∨
      st.tire_pressure_rl < 2 ∨ st.tire_pressure_rr < 2 then
    ⟨0x0101, "Low tire pressure"⟩
  else if (2/5 : ℚ) < absQ (st.tire_pressure_fl - st.tire_pressure_fr) ∨
      (2/5 : ℚ) < absQ (st.tire_pressure_rl - st.tire_pressure_rr) then
    ⟨0x0102, "Tire pressure imbalance"⟩
  else ⟨0, ""⟩

/-- An example evaluator configuration: high-current threshold 80 A (the
adversarial test's combined-failure case draws 100 A). -/
def defaultCfg : EvalConfig :=
  ⟨80⟩

/-- The nominal snapshot of the test `BatteryTemp_Normal_Below_45C`. -/
def nominalStatus : BatteryStatus :=
  ⟨.finite 35, .finite 80, .finite 400, .finite 30, false⟩

/-- The boundary snapshot of the test `BatteryTemp_Warning_At_Exactly_60C`. -/
def status60 : BatteryStatus :=
  ⟨.finite 60, .finite 75, .finite 400, .finite 50, false⟩

/-- A snapshot strictly above the 60 C critical cut, with the other fields as
in the test `BatteryTemp_Critical_Alert_Above_60C`. -/
def status62 : BatteryStatus :=
  ⟨.finite 62, .finite 75, .finite 400, .finite 50, false⟩

/-- The snapshot of the test `CombinedFailure_HighTemp_LowSoC_Emergency`. -/
def emergencyStatus : BatteryStatus :=
  ⟨.finite 65, .finite 5, .finite 350, .finite 100, false⟩

/-- The combined-failure snapshot with current near zero (spec section 8). -/
def criticalOnlyStatus : BatteryStatus :=
  ⟨.finite 65, .finite 5, .finite 350, .finite 0, false⟩

/-- The cold snapshot of the test `BatteryTemp_Warning_Below_Minus10C`. -/
def coldStatus : BatteryStatus :=
  ⟨.finite (-15), .finite 60, .finite 380, .finite 20, false⟩

/-- A snapshot with a NaN temperature reading. -/
def nanStatus : BatteryStatus :=
  ⟨.nan, .finite 50, .finite 400, .finite 10, false⟩

/-- A snapshot whose only triggered reason is a low state of charge. -/
def lowSocStatus : BatteryStatus :=
  ⟨.finite 35, .finite 10, .finite 400, .finite 30, false⟩

/-- A NORMAL evaluation triggers no reasons: the level is NORMAL exactly when
the reason set is empty. -/
theorem evaluate_normal_reasons (cfg : EvalConfig) (s : BatteryStatus)
    (h : (evaluate cfg s).1 = AlertLevel.NORMAL) : (evaluate cfg s).2 = [] := by
  cases hcf : combinedFailure cfg s with
  | true => simp [evaluate, levelOf, hcf] at h
  | false =>
    cases hoc : overTempCritical s with
    | true => simp [evaluate, levelOf, hcf, hoc] at h
    | false =>
      cases how : overTempWarning s with
      | true => simp [evaluate, levelOf, hcf, hoc, how] at h
      | false =>
        cases hut : underTemp s with
        | true => simp [evaluate, levelOf, hcf, hoc, how, hut] at h
        | false =>
          cases hls : lowSoc s with
          | true => simp [evaluate, levelOf, hcf, hoc, how, hut, hls] at h
          | false =>
            cases hiv : invalidSignal s with
            | true => simp [evaluate, levelOf, hcf, hoc, how, hut, hls, hiv] at h
            | false =>
              cases hst : s.stale with
              | true => simp [evaluate, levelOf, hcf, hoc, how, hut, hls, hiv, hst] at h
              | false => simp [evaluate, reasonsOf, hcf, hoc, how, hut, hls, hiv, hst]

/-- C1: a snapshot whose temperature is exactly 60.0 evaluates to WARNING via
OverTemperature, never CRITICAL; whenever the temperature is strictly above
60.0 the critical cut fires (at least CRITICAL, and exactly CRITICAL when the
combined escalation does not apply); correspondingly, the source's
`get_battery_status` emits its critical warning 0x0003 only strictly above
60. -/
theorem evaluate_critical_cut_strict (cfg : EvalConfig) (s : BatteryStatus)
    (v : ℚ) :
    (s.temperature = Reading.finite 60 →
      (evaluate cfg s).1 = AlertLevel.WARNING ∧
      WarningReason.OverTemperature ∈ (evaluate cfg s).2) ∧
    (s.temperature = Reading.finite v → 60 < v →
      AlertLevel.CRITICAL ≤ (evaluate cfg s).1 ∧
      WarningReason.OverTemperature ∈ (evaluate cfg s).2 ∧
      (combinedFailure cfg s = false →
        (evaluate cfg s).1 = AlertLevel.CRITICAL)) ∧
    (0x0003, "Critical temperature - shutdown required") ∉ bmsWarnings 50 60 ∧
    (60 < v →
      (0x0003, "Critical temperature - shutdown required") ∈ bmsWarnings 50 v) := by
  refine ⟨?_, ?_, by decide, ?_⟩
  · intro h
    have hoc : overTempCritical s = false := by
      simp [overTempCritical, Reading.gtQ, h]
    have how : overTempWarning s = true := by
      norm_num [overTempWarning, Reading.gtQ, h]
    have hcf : combinedFailure cfg s = false := by
      simp [combinedFailure, Reading.gtQ, h]
    constructor
    · simp [evaluate, levelOf, hcf, hoc, how]
    · simp [evaluate, reasonsOf, hcf, hoc, how]
  · intro h hv
    have hoc : overTempCritical s = true := by
      simp [overTempCritical, Reading.gtQ, h, hv]
    refine ⟨?_, ?_, ?_⟩
    · cases hcf : combinedFailure cfg s with
      | true =>
        have he : (evaluate cfg s).1 = AlertLevel.EMERGENCY := by
          simp [evaluate, levelOf, hcf]
        rw [he]; decide
      | false =>
        have he : (evaluate cfg s).1 = AlertLevel.CRITICAL := by
          simp [evaluate, levelOf, hcf, hoc]
        rw [he]; decide
    · cases hcf : combinedFailure cfg s with
      | true => simp [evaluate, reasonsOf, hcf, hoc]
      | false => simp [evaluate, reasonsOf, hcf, hoc]
    · intro hcf
      simp [evaluate, levelOf, hcf, hoc]
  · intro hv
    have h45 : (45 : ℚ) < v := lt_trans (by norm_num) hv
    simp [bmsWarnings, hv, h45]

/-- C1 witness: the adversarial-test snapshots at exactly 60 C and at 62 C. -/
theorem evaluate_critical_cut_strict_witness :
    (evaluate defaultCfg status60).1 = AlertLevel.WARNING ∧
    AlertLevel.CRITICAL ≤ (evaluate defaultCfg status62).1 ∧
    (evaluate defaultCfg status62).1 = AlertLevel.CRITICAL ∧
    (0x0003, "Critical temperature - shutdown required") ∈ bmsWarnings 50 62 :=
  ⟨((evaluate_critical_cut_strict defaultCfg status60 60).1 rfl).1,
   ((evaluate_critical_cut_strict defaultCfg status62 62).2.1 rfl
      (by norm_num)).1,
   ((evaluate_critical_cut_strict defaultCfg status62 62).2.1 rfl
      (by norm_num)).2.2 (by decide),
   (evaluate_critical_cut_strict defaultCfg status62 62).2.2.2 (by norm_num)⟩

/-- C2: with temperature above 60.0 and state of charge below 20.0, a current
magnitude above the configured high-current threshold escalates the evaluation
to EMERGENCY; without the high-current conjunct the result is CRITICAL, not
EMERGENCY. -/
theorem evaluate_combined_escalation (cfg : EvalConfig) (s : BatteryStatus) :
    (s.temperature.gtQ 60 = true → s.soc.ltQ 20 = true →
      s.current.absGtQ cfg.highCurrentThreshold = true →
      (evaluate cfg s).1 = AlertLevel.EMERGENCY) ∧
    (s.temperature.gtQ 60 = true → s.soc.ltQ 20 = true →
      s.current.absGtQ cfg.highCurrentThreshold = false →
      (evaluate cfg s).1 = AlertLevel.CRITICAL) := by
  constructor
  · intro h1 h2 h3
    have hcf : combinedFailure cfg s = true := by
      simp [combinedFailure, h1, h2, h3]
    simp [evaluate, levelOf, hcf]
  · intro h1 h2 h3
    have hcf : combinedFailure cfg s = false := by
      simp [combinedFailure, h1, h2, h3]
    have hoc : overTempCritical s = true := by
      simpa [overTempCritical] using h1
    simp [evaluate, levelOf, hcf, hoc]

/-- C2 witness: the combined-failure test snapshot (65 C, 5 percent, 100 A)
and its near-zero-current variant. -/
theorem evaluate_combined_escalation_witness :
    (evaluate defaultCfg emergencyStatus).1 = AlertLevel.EMERGENCY ∧
    (evaluate defaultCfg criticalOnlyStatus).1 = AlertLevel.CRITICAL :=
  ⟨(evaluate_combined_escalation defaultCfg emergencyStatus).1
     (by decide) (by decide) (by decide),
   (evaluate_combined_escalation defaultCfg criticalOnlyStatus).2
     (by decide) (by decide) (by decide)⟩

/-- C3: a temperature below -10.0 makes the evaluation at least WARNING with
reason UnderTemperature, whatever the other fields. -/
theorem evaluate_undertemp_warning (cfg : EvalConfig) (s : BatteryStatus)
    (h : s.temperature.ltQ (-10) = true) :
    AlertLevel.WARNING ≤ (evaluate cfg s).1 ∧
    WarningReason.UnderTemperature ∈ (evaluate cfg s).2 := by
  have hut : underTemp s = true := by simpa [underTemp] using h
  constructor
  · cases hcf : combinedFailure cfg s with
    | true =>
      have he : (evaluate cfg s).1 = AlertLevel.EMERGENCY := by
        simp [evaluate, levelOf, hcf]
      rw [he]; decide
    | false =>
      cases hoc : overTempCritical s with
      | true =>
        have he : (evaluate cfg s).1 = AlertLevel.CRITICAL := by
          simp [evaluate, levelOf, hcf, hoc]
        rw [he]; decide
      | false =>
        have he : (evaluate cfg s).1 = AlertLevel.WARNING := by
          simp [evaluate, levelOf, hcf, hoc, hut]
        rw [he]; decide
  · cases hcf : combinedFailure cfg s with
    | true => simp [evaluate, reasonsOf, hcf, hut]
    | false => simp [evaluate, reasonsOf, hcf, hut]

/-- C3 witness: the cold-climate test snapshot at -15 C. -/
theorem evaluate_undertemp_warning_witness :
    coldStatus.temperature.ltQ (-10) = true ∧
    (AlertLevel.WARNING ≤ (evaluate defaultCfg coldStatus).1 ∧
     WarningReason.UnderTemperature ∈ (evaluate defaultCfg coldStatus).2) :=
  ⟨by decide, evaluate_undertemp_warning defaultCfg coldStatus (by decide)⟩

/-- C5: the evaluation of any snapshot containing a non-finite reading is at
least WARNING with reason InvalidSignal (the evaluator itself is a total
computable function of the snapshot, hence deterministic and free of side
effects). -/
theorem evaluate_invalid_signal (cfg : EvalConfig) (s : BatteryStatus)
    (h : invalidSignal s = true) :
    AlertLevel.WARNING ≤ (evaluate cfg s).1 ∧
    WarningReason.InvalidSignal ∈ (evaluate cfg s).2 := by
  constructor
  · cases hcf : combinedFailure cfg s with
    | true =>
      have he : (evaluate cfg s).1 = AlertLevel.EMERGENCY := by
        simp [evaluate, levelOf, hcf]
      rw [he]; decide
    | false =>
      cases hoc : overTempCritical s with
      | true =>
        have he : (evaluate cfg s).1 = AlertLevel.CRITICAL := by
          simp [evaluate, levelOf, hcf, hoc]
        rw [he]; decide
      | false =>
        have he : (evaluate cfg s).1 = AlertLevel.WARNING := by
          simp [evaluate, levelOf, hcf, hoc, h]
        rw [he]; decide
  · cases hcf : combinedFailure cfg s with
    | true => simp [evaluate, reasonsOf, hcf, h]
    | false => simp [evaluate, reasonsOf, hcf, h]

/-- C5 witness: a snapshot with a NaN temperature reading. -/
theorem evaluate_invalid_signal_witness :
    invalidSignal nanStatus = true ∧
    (AlertLevel.WARNING ≤ (evaluate defaultCfg nanStatus).1 ∧
     WarningReason.InvalidSignal ∈ (evaluate defaultCfg nanStatus).2) :=
  ⟨by decide, evaluate_invalid_signal defaultCfg nanStatus (by decide)⟩

/-- C4: `get_estimated_range` maps the defined modes 0, 1, 2 to the fixed
estimates 200, 400, 600 km, but a selector outside {0,1,2} (such as 3) yields
no defined value (the source leaves `range_km` uninitialized), and
`handle_get_estimated_range` silently defaults an undersized payload to mode
1 instead of returning an INVALID_ARGUMENT error: no error path exists. -/
theorem get_estimated_range_selector_divergence :
    get_estimated_range 0 = some 200 ∧
    get_estimated_range 1 = some 400 ∧
    get_estimated_range 2 = some 600 ∧
    get_estimated_range 3 = none ∧
    handle_get_estimated_range [3] = none ∧
    handle_get_estimated_range [] = some 400 := by
  decide

/-- The alert order is irreflexive. -/
theorem alertLevel_lt_irrefl (a : AlertLevel) : ¬ a < a :=
  Nat.lt_irrefl _

/-- C6: the notifier emits no event when the reason set is unchanged and the
level has not increased; re-feeding the very same evaluation directly after
any step is always silent (dedupe); and on the first NORMAL evaluation after
an elevated level it emits the cleared event `⟨NORMAL, []⟩` once, staying
silent on the next NORMAL evaluation. -/
theorem notifier_dedupe_and_cleared (cfg : EvalConfig) (st : NotifierState)
    (s t : BatteryStatus) :
    ((evaluate cfg s).2 = st.lastReasons →
      ¬ st.lastLevel < (evaluate cfg s).1 →
      (notifierStep st (evaluate cfg s)).2 = none) ∧
    (notifierStep (notifierStep st (evaluate cfg s)).1 (evaluate cfg s)).2 =
      none ∧
    (st.lastLevel ≠ AlertLevel.NORMAL → st.lastReasons ≠ [] →
      (evaluate cfg t).1 = AlertLevel.NORMAL →
      (notifierStep st (evaluate cfg t)).2 =
        some ⟨AlertLevel.NORMAL, []⟩ ∧
      (notifierStep (notifierStep st (evaluate cfg t)).1
        (evaluate cfg t)).2 = none) := by
  refine ⟨?_, ?_, ?_⟩
  · intro h1 h2
    simp [notifierStep, h1, h2]
  · by_cases hc : (evaluate cfg s).2 ≠ st.lastReasons ∨
        st.lastLevel < (evaluate cfg s).1
    · simp [notifierStep, hc, alertLevel_lt_irrefl]
    · simp [notifierStep, hc]
  · intro hL hR hN
    have hr : (evaluate cfg t).2 = [] := evaluate_normal_reasons cfg t hN
    have hcond : (evaluate cfg t).2 ≠ st.lastReasons := by
      rw [hr]; exact fun hh => hR hh.symm
    constructor
    · simp [notifierStep, hN, hr, hR]
    · simp [notifierStep, hcond, alertLevel_lt_irrefl]

/-- C6 witness: a notifier that last emitted (WARNING, {LowStateOfCharge})
stays silent on the identical evaluation and emits the cleared event on the
first NORMAL evaluation. -/
theorem notifier_dedupe_and_cleared_witness :
    (notifierStep ⟨AlertLevel.WARNING, [WarningReason.LowStateOfCharge]⟩
      (evaluate defaultCfg lowSocStatus)).2 = none ∧
    (notifierStep ⟨AlertLevel.WARNING, [WarningReason.LowStateOfCharge]⟩
      (evaluate defaultCfg nominalStatus)).2 =
      some ⟨AlertLevel.NORMAL, []⟩ :=
  ⟨(notifier_dedupe_and_cleared defaultCfg
      ⟨AlertLevel.WARNING, [WarningReason.LowStateOfCharge]⟩
      lowSocStatus nominalStatus).1 (by decide) (by decide),
   ((notifier_dedupe_and_cleared defaultCfg
      ⟨AlertLevel.WARNING, [WarningReason.LowStateOfCharge]⟩
      lowSocStatus nominalStatus).2.2 (by decide) (by decide) (by decide)).1⟩

/-- C7: dispatching any (service, method) pair outside the registered method
table returns the MethodNotFound error response and leaves the snapshot
unchanged. -/
theorem dispatch_unknown_method (cfg : EvalConfig) (snap : BatteryStatus)
    (svc mth : Nat) (payload : List Nat)
    (h : (svc, mth) ∉ registeredMethods) :
    dispatch cfg snap svc mth payload =
      (Response.error ErrorCode.MethodNotFound, snap) := by
  simp only [registeredMethods, List.mem_cons, List.not_mem_nil,
    Prod.mk.injEq, or_false, not_or] at h
  obtain ⟨h1, h2, h3⟩ := h
  simp [dispatch, h1, h2, h3]

/-- C7 witness: method id 99 on the BMS service id 4097 is not registered. -/
theorem dispatch_unknown_method_witness :
    (4097, 99) ∉ registeredMethods ∧
    dispatch defaultCfg nominalStatus 4097 99 [] =
      (Response.error ErrorCode.MethodNotFound, nominalStatus) :=
  ⟨by decide,
   dispatch_unknown_method defaultCfg nominalStatus 4097 99 [] (by decide)⟩

/-- C8: `handle_motor_temperature` never emits the critical event 0x0202 —
the `> 85.0` branch shadows the `> 100.0` branch — and any temperature above
100 emits only the high-temperature event 0x0201. -/
theorem motor_critical_event_unreachable (t : ℚ) :
    handle_motor_temperature t ≠
      some (0x0202, "Motor critical temperature") ∧
    (100 < t →
      handle_motor_temperature t =
        some (0x0201, "Motor temperature high")) := by
  by_cases h85 : (85 : ℚ) < t
  · constructor
    · simp [handle_motor_temperature, h85]
    · intro _
      simp [handle_motor_temperature, h85]
  · have h100 : ¬ (100 : ℚ) < t := fun h => h85 (lt_trans (by norm_num) h)
    constructor
    · simp [handle_motor_temperature, h85, h100]
    · intro h
      exact absurd h h100

/-- C8 witness: a reading of 105 C, above the 100 C critical threshold, emits
only the high-temperature event. -/
theorem motor_critical_event_unreachable_witness :
    (100 : ℚ) < 105 ∧
    handle_motor_temperature 105 ≠
      some (0x0202, "Motor critical temperature") ∧
    handle_motor_temperature 105 =
      some (0x0201, "Motor temperature high") :=
  ⟨by norm_num, (motor_critical_event_unreachable 105).1,
   (motor_critical_event_unreachable 105).2 (by norm_num)⟩

/-- C9: `emitTireWarning` gives low pressure precedence over imbalance — any
pressure below 2.0 yields code 0x0101 even if an imbalance is also present;
code 0x0102 requires all four pressures at least 2.0 and a front or rear axle
pair differing by more than 0.4; otherwise the zero-valued event is
returned. -/
theorem emitTireWarning_precedence (st : TireState) :
    ((st.tire_pressure_fl < 2 ∨ st.tire_pressure_fr < 2 ∨
        st.tire_pressure_rl < 2 ∨ st.tire_pressure_rr < 2) →
      emitTireWarning st = ⟨0x0101, "Low tire pressure"⟩) ∧
    (2 ≤ st.tire_pressure_fl → 2 ≤ st.tire_pressure_fr →
      2 ≤ st.tire_pressure_rl → 2 ≤ st.tire_pressure_rr →
      ((2/5 : ℚ) < absQ (st.tire_pressure_fl - st.tire_pressure_fr) ∨
       (2/5 : ℚ) < absQ (st.tire_pressure_rl - st.tire_pressure_rr)) →
      emitTireWarning st = ⟨0x0102, "Tire pressure imbalance"⟩) ∧
    (2 ≤ st.tire_pressure_fl → 2 ≤ st.tire_pressure_fr →
      2 ≤ st.tire_pressure_rl → 2 ≤ st.tire_pressure_rr →
      absQ (st.tire_pressure_fl - st.tire_pressure_fr) ≤ 2/5 →
      absQ (st.tire_pressure_rl - st.tire_pressure_rr) ≤ 2/5 →
      emitTireWarning st = ⟨0, ""⟩) := by
  refine ⟨?_, ?_, ?_⟩
  · intro h
    unfold emitTireWarning
    rw [if_pos h]
  · intro h1 h2 h3 h4 himb
    have hnot : ¬ (st.tire_pressure_fl < 2 ∨ st.tire_pressure_fr < 2 ∨
        st.tire_pressure_rl < 2 ∨ st.tire_pressure_rr < 2) := by
      push_neg
      exact ⟨h1, h2, h3, h4⟩
    unfold emitTireWarning
    rw [if_neg hnot, if_pos himb]
  · intro h1 h2 h3 h4 hf hr
    have hnot : ¬ (st.tire_pressure_fl < 2 ∨ st.tire_pressure_fr < 2 ∨
        st.tire_pressure_rl < 2 ∨ st.tire_pressure_rr < 2) := by
      push_neg
      exact ⟨h1, h2, h3, h4⟩
    have hnotimb : ¬ ((2/5 : ℚ) <
        absQ (st.tire_pressure_fl - st.tire_pressure_fr) ∨
        (2/5 : ℚ) < absQ (st.tire_pressure_rl - st.tire_pressure_rr)) := by
      push_neg
      exact ⟨hf, hr⟩
    unfold emitTireWarning
    rw [if_neg hnot, if_neg hnotimb]

/-- C9 witness: a deflated front-left tire, a front-axle imbalance of 1.0,
and a balanced nominal configuration. -/
theorem emitTireWarning_precedence_witness :
    emitTireWarning ⟨1, 3, 3, 3⟩ = ⟨0x0101, "Low tire pressure"⟩ ∧
    emitTireWarning ⟨3, 4, 3, 3⟩ = ⟨0x0102, "Tire pressure imbalance"⟩ ∧
    emitTireWarning ⟨3, 3, 3, 3⟩ = ⟨0, ""⟩ := by
  refine ⟨(emitTireWarning_precedence ⟨1, 3, 3, 3⟩).1 (by norm_num),
    (emitTireWarning_precedence ⟨3, 4, 3, 3⟩).2.1 (by norm_num) (by norm_num)
      (by norm_num) (by norm_num) ?_,
    (emitTireWarning_precedence ⟨3, 3, 3, 3⟩).2.2 (by norm_num) (by norm_num)
      (by norm_num) (by norm_num) ?_ ?_⟩
  · left
    norm_num [absQ]
  · norm_num [absQ]
  · norm_num [absQ]

/-- C10: setting the four tire pressures and reading the tire status back
returns exactly the values that were set, with failure risk 0.0. -/
theorem setTirePressures_GetTireStatus_roundtrip (st : TireState)
    (fl fr rl rr : ℚ) :
    GetTireStatus (setTirePressures st fl fr rl rr) = ⟨fl, fr, rl, rr, 0⟩ :=
  rfl
